import Mathlib

/-!
Verification of the tabtalk inter-window messaging library.

The definitions below are a shallow embedding of the two source files of the
repository: `source/WindowMessage.js` (the envelope constructor and the action
constants) and the `WindowManager.js` rendered in the repository documentation
(the inbound message handler, `broadcast`, `lookup`, `openSession`,
`sessionAvailable`, ...).  JavaScript objects with possibly-absent fields are
modelled with `Option`; the raw property-table view needed for the envelope
wire-shape claims uses explicit `(name, value)` lists over a small JavaScript
value type.  Side effects of the handlers (sends over a session, console
warnings, callback invocations) are modelled as an explicit effect trace, and
the session table of a manager is an insertion-ordered association list, which
is how `for(var i in obj)` enumerates a plain object keyed by strings.
-/

namespace TabTalk

/-- A JavaScript value, as far as the tabtalk wire format needs it:
`undefined`, `null`, numbers, strings, arrays and plain objects
(insertion-ordered property lists). -/
inductive JSVal where
  | undefined : JSVal
  | null : JSVal
  | num : Int → JSVal
  | str : String → JSVal
  | arr : List JSVal → JSVal
  | obj : List (String × JSVal) → JSVal
deriving Repr

/-- `true` exactly on the JavaScript value `undefined`; this is the
`x !== undefined` test used by the `WindowMessage` constructor. -/
def JSVal.isUndefined : JSVal → Bool
  | .undefined => true
  | _ => false

namespace WindowMessage

/-- `WindowMessage.READY = 0` -/
def READY : Nat := 0
/-- `WindowMessage.CLOSED = 1` -/
def CLOSED : Nat := 1
/-- `WindowMessage.LOOKUP = 2` -/
def LOOKUP : Nat := 2
/-- `WindowMessage.MESSAGE = 3` -/
def MESSAGE : Nat := 3
/-- `WindowMessage.BROADCAST = 4` -/
def BROADCAST : Nat := 4
/-- `WindowMessage.LOOKUP_FOUND = 5` -/
def LOOKUP_FOUND : Nat := 5
/-- `WindowMessage.LOOKUP_NOT_FOUND = 6` -/
def LOOKUP_NOT_FOUND : Nat := 6
/-- `WindowMessage.CONNECT = 7` -/
def CONNECT : Nat := 7

/-- The `WindowMessage` constructor of `source/WindowMessage.js`, viewed as the
property table of the object it builds.  The four mandatory fields are always
assigned; each optional field is assigned only under an `x !== undefined`
guard; `hops` is always initialized to the empty array. -/
def construct (number action originType originUUID destinationType
    destinationUUID data authentication : JSVal) : List (String × JSVal) :=
  [("number", number), ("action", action),
   ("originType", originType), ("originUUID", originUUID)]
  ++ (if destinationType.isUndefined then [] else [("destinationType", destinationType)])
  ++ (if destinationUUID.isUndefined then [] else [("destinationUUID", destinationUUID)])
  ++ (if data.isUndefined then [] else [("data", data)])
  ++ (if authentication.isUndefined then [] else [("authentication", authentication)])
  ++ [("hops", JSVal.arr [])]

end WindowMessage

/-- Property read on a JavaScript object's property table: `some v` when the
field is present with value `v`, `none` when the field is absent. -/
def getField (fields : List (String × JSVal)) (k : String) : Option JSVal :=
  (fields.find? (fun p => p.1 = k)).map (fun p => p.2)

/-- A `WindowMessage` envelope as the routing code reads it.  Fields that the
constructor leaves unassigned when the argument is `undefined` are `Option`s
(`none` = the property is absent). -/
structure Msg where
  number : Nat
  action : Nat
  originType : Option String
  originUUID : Option String
  destinationType : Option String
  destinationUUID : Option String
  data : Option JSVal
  authentication : Option String
  hops : List String
deriving Repr

/-- The `WindowSession` states named by the spec; `WindowSession.js` itself is
not part of the sources, sessions only appear here through the fields the
`WindowManager` code reads and writes. -/
inductive SessionStatus where
  | connecting : SessionStatus
  | waitingReady : SessionStatus
  | ready : SessionStatus
  | closedStatus : SessionStatus
deriving Repr, DecidableEq

/-- The slice of a `WindowSession` object that `WindowManager.js` reads:
its identifiers, whether its per-session callbacks are set (`null` checks in
the source), and its `received` message queue. -/
structure Session where
  uuid : String
  type : Option String
  onMessage : Bool
  onBroadcastMessage : Bool
  received : List Msg
deriving Repr

/-- One observable side effect of the message handler, in the order the
handler performs them.  `send k m` is `session.send(m)` on the session stored
under key `k`; callback effects record the arguments passed; `warn` and
`errorLog` are the `console.warn` / `console.error` calls marking a dropped
envelope (purely informational `console.log` calls are not modelled). -/
inductive Effect where
  | send (sessionKey : String) (message : Msg)
  | warn (text : String)
  | errorLog (text : String)
  | globalOnBroadcast (data : Option JSVal) (authentication : Option String)
  | sessionOnBroadcast (sessionKey : String) (data : Option JSVal) (authentication : Option String)
  | globalOnMessage (originType : Option String) (data : Option JSVal) (authentication : Option String)
  | sessionOnMessage (sessionUUID : String) (data : Option JSVal) (authentication : Option String)
  | setStatus (sessionUUID : String) (status : SessionStatus)
  | createSession (uuid : Option String) (windowType : Option String) (gatewayKey : String)
  | acknowledge (sessionUUID : Option String)
  | waitReady (sessionUUID : Option String)
deriving Repr

/-- The state of a `WindowManager`: identity, the session table
(`this.sessions`, a plain object keyed by uuid, enumerated in insertion
order), and whether the two global callback slots are set. -/
structure Router where
  type : Option String
  uuid : String
  sessions : List (String × Session)
  onMessage : Bool
  onBroadcastMessage : Bool
deriving Repr

/-- `this.sessions[k]`: association-list lookup; indexing with `undefined`
(`none`) finds nothing. -/
def getSession (sessions : List (String × Session)) (k : Option String) :
    Option (String × Session) :=
  match k with
  | none => none
  | some key => sessions.find? (fun p => p.1 = key)

/-- `delete this.sessions[k]`. -/
def deleteSession (sessions : List (String × Session)) (k : Option String) :
    List (String × Session) :=
  match k with
  | none => sessions
  | some key => sessions.filter (fun p => p.1 ≠ key)

/-- Replace the session stored under key `k` by `f` of it. -/
def updateSession (sessions : List (String × Session)) (k : Option String)
    (f : Session → Session) : List (String × Session) :=
  match k with
  | none => sessions
  | some key => sessions.map (fun p => if p.1 = key then (p.1, f p.2) else p)

/-- A string-valued session field viewed as a JavaScript value
(`undefined` when unset). -/
def optJS : Option String → JSVal
  | some s => .str s
  | none => .undefined

/-- The `for(var i in self.sessions)` loop of the BROADCAST branch: forward
the (already hop-extended) envelope to every session whose uuid is neither the
envelope's `originUUID` nor in its `hops`, invoking that session's
`onBroadcastMessage` as it is forwarded. -/
def broadcastForward (sessions : List (String × Session)) (message : Msg) :
    List Effect :=
  match sessions with
  | [] => []
  | (k, s) :: rest =>
    (if some s.uuid ≠ message.originUUID ∧ ¬ message.hops.contains s.uuid then
      Effect.send k message ::
        (if s.onBroadcastMessage then
          [Effect.sessionOnBroadcast k message.data message.authentication]
        else [])
    else []) ++ broadcastForward rest message

/-- The `else` block of the message handler of `WindowManager.js` (first
source revision): local, by-action processing of an envelope that is not being
redirected.  Returns the updated manager state and the effect trace.
The CONNECT branch creates a `WindowSession` whose registration lives in
`WindowSession.js` (not among the sources), so it is recorded as effects and
leaves the table unchanged here; no claim touches it. -/
def processLocal (self : Router) (message : Msg) : Router × List Effect :=
  if message.action = WindowMessage.CLOSED then
    match getSession self.sessions message.originUUID with
    | some p =>
      ({ self with sessions := deleteSession self.sessions message.originUUID },
       [Effect.setStatus p.2.uuid SessionStatus.closedStatus])
    | none => (self, [Effect.warn "TabTalk: Unknown closed origin session."])
  else if message.action = WindowMessage.LOOKUP then
    let response : Msg :=
      match self.sessions.find? (fun p => p.2.type = message.destinationType) with
      | some p =>
        { number := 0, action := WindowMessage.LOOKUP_FOUND,
          originType := self.type, originUUID := some self.uuid,
          destinationType := none, destinationUUID := none,
          data := some (.obj [("uuid", .str p.2.uuid), ("type", optJS p.2.type)]),
          authentication := none, hops := [] }
      | none =>
        { number := 0, action := WindowMessage.LOOKUP_NOT_FOUND,
          originType := self.type, originUUID := some self.uuid,
          destinationType := none, destinationUUID := none,
          data := none, authentication := none, hops := [] }
    match getSession self.sessions message.originUUID with
    | some p => (self, [Effect.send p.1 response])
    | none => (self, [Effect.warn "TabTalk: Unknown lookup origin session."])
  else if message.action = WindowMessage.CONNECT then
    let gatewayUUID := message.hops.getLast?
    match getSession self.sessions gatewayUUID with
    | some p =>
      (self,
       [Effect.createSession message.originUUID message.originType p.1,
        Effect.waitReady message.originUUID,
        Effect.acknowledge message.originUUID,
        Effect.warn "TabTalk: Connect message received, creating a new session."])
    | none =>
      (self, [Effect.errorLog "TabTalk: Connect message received, but the gateway is unknown."])
  else if message.action = WindowMessage.BROADCAST then
    let callGlobal :=
      if self.onBroadcastMessage then
        [Effect.globalOnBroadcast message.data message.authentication]
      else []
    let message := { message with hops := message.hops ++ [self.uuid] }
    (self, callGlobal ++ broadcastForward self.sessions message)
  else if message.action = WindowMessage.MESSAGE then
    let callGlobal :=
      if self.onMessage then
        [Effect.globalOnMessage message.originType message.data message.authentication]
      else []
    match getSession self.sessions message.originUUID with
    | some p =>
      let sessions := updateSession self.sessions message.originUUID
        (fun s => { s with received := s.received ++ [message] })
      ({ self with sessions := sessions },
       callGlobal ++
        (if p.2.onMessage then
          [Effect.sessionOnMessage p.2.uuid message.data message.authentication]
        else []))
    | none => (self, callGlobal ++ [Effect.warn "TabTalk: Unknown origin session."])
  else
    (self, [Effect.warn "TabTalk: Unknown message type."])

/-- The inbound `"message"` event handler installed by the `WindowManager`
constructor (first source revision): READY envelopes are ignored outright;
an envelope whose `destinationUUID` is set and differs from this manager's
uuid is redirected (one hop appended) to the session keyed by that uuid, or
dropped with a warning; everything else is processed locally by action. -/
def dispatch (self : Router) (message : Msg) : Router × List Effect :=
  if message.action = WindowMessage.READY then (self, [])
  else if message.destinationUUID ≠ none ∧ message.destinationUUID ≠ some self.uuid then
    match getSession self.sessions message.destinationUUID with
    | some p =>
      let message := { message with hops := message.hops ++ [self.uuid] }
      (self,
       [Effect.warn "TabTalk: Destination UUID diferent from self.",
        Effect.send p.1 message])
    | none =>
      (self,
       [Effect.warn "TabTalk: Destination UUID diferent from self.",
        Effect.warn "TabTalk: Unknown destination, cannot redirect message."])
  else processLocal self message

/-- Modelled from the spec: the `EventManager` stored in `this.manager`
(its source is not under `src/`) is the event-subscription adapter exposing
only `add`, `create` and `destroy`; it has no `type` property, so reading
`this.manager.type` yields `undefined`. -/
def EventManager.type : Option String := none

/-- Modelled from the spec: the `EventManager` stored in `this.manager`
(its source is not under `src/`) is the event-subscription adapter exposing
only `add`, `create` and `destroy`; it has no `uuid` property, so reading
`this.manager.uuid` yields `undefined`. -/
def EventManager.uuid : Option String := none

/-- `WindowManager.prototype.broadcast` (first source revision): build a
BROADCAST envelope — note the source reads `this.manager.type` and
`this.manager.uuid`, the fields of the `EventManager`, not of the manager
itself — push this manager's own uuid onto `hops`, and send it to every
session in the table. -/
def broadcast (self : Router) (data : Option JSVal)
    (authentication : Option String) : List Effect :=
  let message : Msg :=
    { number := 0, action := WindowMessage.BROADCAST,
      originType := EventManager.type, originUUID := EventManager.uuid,
      destinationType := none, destinationUUID := none,
      data := data, authentication := authentication, hops := [] }
  let message := { message with hops := message.hops ++ [self.uuid] }
  self.sessions.map (fun p => Effect.send p.1 message)

/-- A JavaScript runtime error observable from the manager's code: the
ReferenceError thrown by reading an unbound identifier, or the TypeError
thrown by reading a property (named here) off `undefined` or `null`. -/
inductive JSError where
  | referenceError (name : String)
  | typeError (prop : String)
deriving Repr, DecidableEq

/-- `data.data.k` in the lookup response collector: reading property `k` of
the response's `data` payload.  In JavaScript, reading any property of
`undefined` (the field being absent, here `none`, or explicitly `undefined`)
or of `null` throws a TypeError; an object yields the property's value, or
`undefined` when it lacks it; other values autobox and yield `undefined` for
these property names. -/
def jsGetProp : Option JSVal → String → Except JSError JSVal
  | none, k => Except.error (JSError.typeError k)
  | some JSVal.undefined, k => Except.error (JSError.typeError k)
  | some JSVal.null, k => Except.error (JSError.typeError k)
  | some (JSVal.obj fields), k =>
    Except.ok (match fields.find? (fun p => p.1 = k) with
               | some p => p.2
               | none => JSVal.undefined)
  | some _, _ => Except.ok JSVal.undefined

/-- The identity a LOOKUP_FOUND response advertises in field `k` of its
`data` object.  This is a specification-side accessor used only to state
theorems about responses whose payload is an object (where it agrees with
the fallible property read `jsGetProp`); the collector itself never uses
it. -/
def advertisedField (m : Msg) (k : String) : JSVal :=
  match m.data with
  | some (JSVal.obj fields) =>
    (match fields.find? (fun p => p.1 = k) with
     | some p => p.2
     | none => JSVal.undefined)
  | _ => JSVal.undefined

/-- One `onFinish` invocation of `lookup`: either `onFinish(session, uuid,
type)` with the responding neighbor's table entry and the advertised identity,
or `onFinish(null)`. -/
inductive FinishCall where
  | found (entry : String × Session) (uuid : JSVal) (windowType : JSVal)
  | finishedNull
deriving Repr

/-- One invocation of the collector's event handler body on envelope `m`,
up to (and excluding) the trailing `sent === received` check: yields the
updated `received` and `found`, the `onFinish` invocations performed, and the
error thrown, if any.  In the source the accepted LOOKUP_FOUND branch runs
`found = true; onFinish(session, data.data.uuid, data.data.type)`: `found` is
assigned before the argument expressions are evaluated, so a TypeError from
`data.data.uuid` (or `.type`) leaves `found` set but skips the `onFinish`
call and the `received++` after it.  A LOOKUP_FOUND from an unknown origin,
or arriving when a match was already accepted, never touches `data` and just
counts; LOOKUP_NOT_FOUND counts; other envelopes do nothing. -/
def collectorHandle (sessions : List (String × Session)) (m : Msg)
    (received : Nat) (found : Bool) :
    Nat × Bool × List FinishCall × Option JSError :=
  if m.action = WindowMessage.LOOKUP_FOUND then
    match getSession sessions m.originUUID, found with
    | some p, false =>
      match jsGetProp m.data "uuid", jsGetProp m.data "type" with
      | Except.ok u, Except.ok t =>
        (received + 1, true, [FinishCall.found p u t], none)
      | Except.error e, _ => (received, true, [], some e)
      | _, Except.error e => (received, true, [], some e)
    | _, _ => (received + 1, found, [], none)
  else if m.action = WindowMessage.LOOKUP_NOT_FOUND then
    (received + 1, found, [], none)
  else (received, found, [], none)

/-- The temporary `"message"` collector installed by
`WindowManager.prototype.lookup`, run over the list of envelopes delivered to
it while subscribed.  Each envelope is handled by `collectorHandle`; when the
handler body completes without throwing, the trailing `sent === received`
check retires the collector (`manager.destroy()`, so remaining envelopes are
never seen) and fires `onFinish(null)` if nothing was accepted.  A thrown
TypeError aborts that handler invocation before the check, but the
subscription survives, so later envelopes are still delivered.  Returns the
`onFinish` invocations and the errors thrown, each in order. -/
def collector (sessions : List (String × Session)) (sent : Nat) :
    Nat → Bool → List Msg → List FinishCall × List JSError
  | _, _, [] => ([], [])
  | received, found, m :: rest =>
    match collectorHandle sessions m received found with
    | (received', found', calls, some e) =>
      let next := collector sessions sent received' found' rest
      (calls ++ next.1, e :: next.2)
    | (received', found', calls, none) =>
      if sent = received' then
        (calls ++ (if found' then [] else [FinishCall.finishedNull]), [])
      else
        let next := collector sessions sent received' found' rest
        (calls ++ next.1, next.2)

/-- The LOOKUP request envelope `lookup` builds (correctly from `this.type`
and `this.uuid`). -/
def lookupRequest (self : Router) (ty : Option String) : Msg :=
  { number := 0, action := WindowMessage.LOOKUP,
    originType := self.type, originUUID := some self.uuid,
    destinationType := ty, destinationUUID := none,
    data := none, authentication := none, hops := [] }

/-- `WindowManager.prototype.lookup`: send one LOOKUP envelope to every
session in the table; with zero sessions call `onFinish(null)` immediately
(synchronously, before returning); otherwise install the response collector.
`responses` is the list of envelopes the window delivers to the collector
while it is subscribed.  Returns the sent envelopes, the `onFinish`
invocations, and the errors the collector threw. -/
def lookup (self : Router) (ty : Option String) (responses : List Msg) :
    List Effect × List FinishCall × List JSError :=
  let message := lookupRequest self ty
  let sends := self.sessions.map (fun p => Effect.send p.1 message)
  let sent := self.sessions.length
  if sent > 0 then (sends, collector self.sessions sent 0 false responses)
  else (sends, [FinishCall.finishedNull], [])

/-- The `for(var i in this.sessions)` loop of
`WindowManager.prototype.sessionAvailable`.  Its condition is
`this.sessions[i].type === type || message.action !== WindowMessage.CLOSED`
where `message` is an unbound identifier: when the first session's type
matches, `||` short-circuits and the loop returns `true`; otherwise evaluating
`message` throws a ReferenceError, so no later iteration is ever reached. -/
def sessionAvailableLoop : List (String × Session) → Option String →
    Except JSError Bool
  | [], _ => Except.ok false
  | (_, s) :: _, ty =>
    if s.type = ty then Except.ok true
    else Except.error (JSError.referenceError "message")

/-- `WindowManager.prototype.sessionAvailable`. -/
def sessionAvailable (self : Router) (ty : Option String) :
    Except JSError Bool :=
  sessionAvailableLoop self.sessions ty

/-- The slice of a `WindowSession` object that `openSession` handles: an
object identity (distinct for every session the manager creates) and the
`type` field the search loop compares. -/
structure WSession where
  id : Nat
  type : Option String
deriving Repr, DecidableEq

/-- Manager state as `openSession` sees it: the session objects of the table
in enumeration order, plus a counter supplying fresh object identities. -/
structure OpenSessionState where
  sessions : List WSession
  nextId : Nat
deriving Repr, DecidableEq

/-- `WindowManager.prototype.openSession` (its `url` collaborator plumbing is
out of scope): scan the table in order and return an existing session of the
requested `type`; otherwise create a new session with that `type` and return
it.  The subsequent `lookup` continuation only mutates connection fields
(`gateway`, `uuid`, `window`) of that same object.  Modelled from the spec:
the created session is registered in the manager's table (registration is
performed by `WindowSession.js`, which is not among the sources; the spec
lists a session as created by the router in response to an `openSession` call
and owned by it until closed). -/
def openSession (st : OpenSessionState) (ty : Option String) :
    WSession × OpenSessionState :=
  match st.sessions.find? (fun s => s.type = ty) with
  | some s => (s, st)
  | none =>
    let s : WSession := { id := st.nextId, type := ty }
    (s, { sessions := st.sessions ++ [s], nextId := st.nextId + 1 })

/-- A network of managers connected by direct sessions: the key of each table
entry is the uuid of the neighboring manager it writes to.  `queue` holds the
in-flight envelopes (destination manager uuid, envelope) in delivery order —
each inbound event is fully dispatched before the next, per the
single-threaded event model.  `trace` records every effect together with the
uuid of the manager that performed it. -/
structure Net where
  routers : List Router
  queue : List (String × Msg)
  trace : List (String × Effect)
deriving Repr

/-- The `send` effects of an effect list, as (destination uuid, envelope)
deliveries: a direct session's key is the uuid of the manager behind it, and
each delivery hands the receiver its own structured clone of the envelope. -/
def sendTargets (effects : List Effect) : List (String × Msg) :=
  effects.filterMap (fun e =>
    match e with
    | Effect.send k m => some (k, m)
    | _ => none)

/-- Deliver the head envelope of the queue to its destination manager and run
its message handler; the sends it performs are appended to the queue. -/
def netStep (net : Net) : Net :=
  match net.queue with
  | [] => net
  | (dest, m) :: rest =>
    match net.routers.find? (fun r => r.uuid = dest) with
    | none => { net with queue := rest }
    | some r =>
      let out := dispatch r m
      { routers := net.routers.map (fun x => if x.uuid = dest then out.1 else x),
        queue := rest ++ sendTargets out.2,
        trace := net.trace ++ out.2.map (fun e => (dest, e)) }

/-- Run `n` delivery steps. -/
def netRun : Nat → Net → Net
  | 0, net => net
  | n + 1, net => netRun n (netStep net)

/-- `true` on a `send` effect. -/
def Effect.isSend : Effect → Bool
  | Effect.send _ _ => true
  | _ => false

/-- `true` on a manager-level `onBroadcastMessage` invocation. -/
def Effect.isGlobalBroadcast : Effect → Bool
  | Effect.globalOnBroadcast _ _ => true
  | _ => false

/-- How many envelopes the manager with uuid `u` forwarded while the network
ran. -/
def forwardCount (net : Net) (u : String) : Nat :=
  (net.trace.filter (fun p => p.1 = u ∧ p.2.isSend)).length

/-- How many times the broadcast was delivered to (the global
`onBroadcastMessage` of) the manager with uuid `u`. -/
def broadcastDeliveries (net : Net) (u : String) : Nat :=
  (net.trace.filter (fun p => p.1 = u ∧ p.2.isGlobalBroadcast)).length

/-- The `hops` fields of the envelopes the manager with uuid `u` sent,
in order. -/
def relayHops (net : Net) (u : String) : List (List String) :=
  net.trace.filterMap (fun p =>
    if p.1 = u then
      match p.2 with
      | Effect.send _ m => some m.hops
      | _ => none
    else none)

/-- A direct session on the neighbor with uuid `u` and type `ty`, with no
per-session callbacks set and an empty received queue. -/
def mkSession (u : String) (ty : Option String) : Session :=
  { uuid := u, type := ty, onMessage := false, onBroadcastMessage := false,
    received := [] }

/-- Node `A` of the cycle topology A–B–C–A. -/
def cycleA : Router :=
  { type := some "A", uuid := "A",
    sessions := [("B", mkSession "B" (some "B")), ("C", mkSession "C" (some "C"))],
    onMessage := false, onBroadcastMessage := true }

/-- Node `B` of the cycle topology A–B–C–A. -/
def cycleB : Router :=
  { type := some "B", uuid := "B",
    sessions := [("A", mkSession "A" (some "A")), ("C", mkSession "C" (some "C"))],
    onMessage := false, onBroadcastMessage := true }

/-- Node `C` of the cycle topology A–B–C–A. -/
def cycleC : Router :=
  { type := some "C", uuid := "C",
    sessions := [("A", mkSession "A" (some "A")), ("B", mkSession "B" (some "B"))],
    onMessage := false, onBroadcastMessage := true }

/-- The cycle network right after `A` called
`broadcast("payload", undefined)`: the two seeded envelopes are in flight,
nothing has been dispatched yet. -/
def cycleNet : Net :=
  { routers := [cycleA, cycleB, cycleC],
    queue := sendTargets (broadcast cycleA (some (.str "payload")) none),
    trace := [] }

/-- The hub of the star topology: leaves `L`, `M`, `K`. -/
def starHub : Router :=
  { type := some "Hub", uuid := "H",
    sessions := [("L", mkSession "L" (some "L")), ("M", mkSession "M" (some "M")),
                 ("K", mkSession "K" (some "K"))],
    onMessage := false, onBroadcastMessage := true }

/-- Leaf `L` of the star topology; its only session is the hub. -/
def starL : Router :=
  { type := some "L", uuid := "L",
    sessions := [("H", mkSession "H" (some "Hub"))],
    onMessage := false, onBroadcastMessage := true }

/-- Leaf `M` of the star topology. -/
def starM : Router :=
  { type := some "M", uuid := "M",
    sessions := [("H", mkSession "H" (some "Hub"))],
    onMessage := false, onBroadcastMessage := true }

/-- Leaf `K` of the star topology. -/
def starK : Router :=
  { type := some "K", uuid := "K",
    sessions := [("H", mkSession "H" (some "Hub"))],
    onMessage := false, onBroadcastMessage := true }

/-- The star network (hub `H`, leaves `L`, `M`, `K`) right after leaf `L`
called `broadcast("payload", undefined)`. -/
def starNet : Net :=
  { routers := [starHub, starL, starM, starK],
    queue := sendTargets (broadcast starL (some (.str "payload")) none),
    trace := [] }

/-- The acceptance test of the lookup response collector, as a predicate on a
response: its action is LOOKUP_FOUND and its `originUUID` keys a session of
the given table.  The collector accepts the first response satisfying it. -/
def accepted (sessions : List (String × Session)) (m : Msg) : Bool :=
  m.action == WindowMessage.LOOKUP_FOUND && (getSession sessions m.originUUID).isSome

/-- A manager `A` holding one direct session on neighbor `B`. -/
def fwdRouter : Router :=
  { type := some "Main", uuid := "A",
    sessions := [("B", mkSession "B" (some "B"))],
    onMessage := false, onBroadcastMessage := false }

/-- A READY envelope addressed to `B`, inbound at a manager whose uuid is not
`B`. -/
def readyEnvelope : Msg :=
  { number := 0, action := WindowMessage.READY,
    originType := some "B", originUUID := some "B",
    destinationType := some "B", destinationUUID := some "B",
    data := none, authentication := none, hops := [] }

/-- A MESSAGE envelope addressed to `B`, inbound at a manager whose uuid is
not `B`. -/
def forwardEnvelope : Msg :=
  { number := 0, action := WindowMessage.MESSAGE,
    originType := some "Chat", originUUID := some "O",
    destinationType := some "B", destinationUUID := some "B",
    data := some (.str "payload"), authentication := none, hops := ["O1"] }

/-- A manager with the global `onMessage` callback set and an empty session
table. -/
def globalRouter : Router :=
  { type := some "Main", uuid := "A", sessions := [],
    onMessage := true, onBroadcastMessage := false }

/-- A MESSAGE envelope whose `originUUID` keys no session of
`globalRouter`. -/
def orphanEnvelope : Msg :=
  { number := 0, action := WindowMessage.MESSAGE,
    originType := some "T", originUUID := some "X",
    destinationType := none, destinationUUID := none,
    data := some (.str "d"), authentication := some "a", hops := [] }

/-- A CLOSED envelope from an origin that keys no session of `fwdRouter`. -/
def strayClosedEnvelope : Msg :=
  { number := 0, action := WindowMessage.CLOSED,
    originType := some "Z", originUUID := some "Z",
    destinationType := none, destinationUUID := none,
    data := none, authentication := none, hops := [] }

/-- A CLOSED envelope from origin `B`, which keys a session of
`fwdRouter`. -/
def knownClosedEnvelope : Msg :=
  { number := 0, action := WindowMessage.CLOSED,
    originType := some "B", originUUID := some "B",
    destinationType := none, destinationUUID := none,
    data := none, authentication := none, hops := [] }

/-- A manager with two direct sessions, `B` (type `X`) and `C` (type `T`),
used to exercise `lookup`. -/
def lkRouter : Router :=
  { type := some "Main", uuid := "A",
    sessions := [("B", mkSession "B" (some "X")), ("C", mkSession "C" (some "T"))],
    onMessage := false, onBroadcastMessage := false }

/-- A LOOKUP_NOT_FOUND response from neighbor `B`. -/
def lkNB : Msg :=
  { number := 0, action := WindowMessage.LOOKUP_NOT_FOUND,
    originType := some "X", originUUID := some "B",
    destinationType := none, destinationUUID := none,
    data := none, authentication := none, hops := [] }

/-- A LOOKUP_FOUND response from neighbor `C` advertising the match
`{uuid: "Z", type: "T"}`. -/
def lkFC : Msg :=
  { number := 0, action := WindowMessage.LOOKUP_FOUND,
    originType := some "T", originUUID := some "C",
    destinationType := none, destinationUUID := none,
    data := some (.obj [("uuid", .str "Z"), ("type", .str "T")]),
    authentication := none, hops := [] }

/-- A malformed LOOKUP_FOUND response from the known neighbor `C` that
carries no `data` payload at all: on it the source collector's
`data.data.uuid` throws a TypeError before `onFinish` is reached. -/
def badFound : Msg :=
  { number := 0, action := WindowMessage.LOOKUP_FOUND,
    originType := some "T", originUUID := some "C",
    destinationType := none, destinationUUID := none,
    data := none, authentication := none, hops := [] }

/-- An `openSession` state with an empty table. -/
def osEmpty : OpenSessionState := { sessions := [], nextId := 0 }

/-- An `openSession` state already holding a session of type `T`. -/
def osWithT : OpenSessionState :=
  { sessions := [{ id := 7, type := some "T" }], nextId := 8 }

/-- A BROADCAST envelope as received by cycle node `B` from originator `A`
(origin identification absent, per the `broadcast` construction; `hops`
seeded with `A`). -/
def cycleEnvelopeAtB : Msg :=
  { number := 0, action := WindowMessage.BROADCAST,
    originType := none, originUUID := none,
    destinationType := none, destinationUUID := none,
    data := some (.str "payload"), authentication := none, hops := ["A"] }

/-- A MESSAGE envelope from origin `B`, which keys a session of `fwdRouter`,
with no destination set. -/
def msgFromB : Msg :=
  { number := 0, action := WindowMessage.MESSAGE,
    originType := some "B", originUUID := some "B",
    destinationType := none, destinationUUID := none,
    data := some (.str "payload"), authentication := none, hops := [] }

/-- C1 (counterexample): the claim fails at action READY.  `readyEnvelope`
satisfies every guard of the claim — its `destinationUUID` (`"B"`) is set,
differs from the receiving manager's uuid (`"A"`), and a session keyed `"B"`
is present — yet `dispatch` produces no effect at all: the handler returns on
`message.action === WindowMessage.READY` before the redirect branch, so no
hop is appended and nothing is delegated. -/
theorem ready_forward_counterexample :
    readyEnvelope.destinationUUID = some "B" ∧ fwdRouter.uuid = "A" ∧
    (getSession fwdRouter.sessions (some "B")).isSome = true ∧
    dispatch fwdRouter readyEnvelope = (fwdRouter, []) :=
  ⟨rfl, rfl, rfl, rfl⟩

/-- C1 (amended): for every inbound envelope whose action is not READY and
whose `destinationUUID` is set and differs from the receiving manager's uuid,
`dispatch` appends the manager's uuid to `hops` and delegates the envelope to
the session keyed by `destinationUUID` (logging and dropping it when that
session is absent), with no state change and no local action handling. -/
theorem forward_nonready (r : Router) (m : Msg) (d : String)
    (ha : m.action ≠ WindowMessage.READY) (hd : m.destinationUUID = some d)
    (hne : d ≠ r.uuid) :
    (getSession r.sessions (some d) = none →
      dispatch r m =
        (r, [Effect.warn "TabTalk: Destination UUID diferent from self.",
             Effect.warn "TabTalk: Unknown destination, cannot redirect message."])) ∧
    (∀ p, getSession r.sessions (some d) = some p →
      p.1 = d ∧
      dispatch r m =
        (r, [Effect.warn "TabTalk: Destination UUID diferent from self.",
             Effect.send d { m with hops := m.hops ++ [r.uuid] }])) := by
  have hcond : m.destinationUUID ≠ none ∧ m.destinationUUID ≠ some r.uuid := by
    simp [hd, hne]
  constructor
  · intro h
    simp only [dispatch, if_neg ha, if_pos hcond, hd, h]
    simp [hne]
  · intro p h
    have hkey : p.1 = d := by
      have h' : r.sessions.find? (fun q => q.1 = d) = some p := by
        simpa [getSession] using h
      have := List.find?_some h'
      simpa using this
    refine ⟨hkey, ?_⟩
    simp only [dispatch, if_neg ha, if_pos hcond, hd, h, hkey]
    simp [hne]

/-- C1 (witness for the amended theorem): at the concrete manager `A` with
neighbor `B`, a MESSAGE envelope addressed to `B` is redirected to the
session keyed `B` with `A` appended to its hops. -/
theorem forward_nonready_witness :
    dispatch fwdRouter forwardEnvelope =
      (fwdRouter,
       [Effect.warn "TabTalk: Destination UUID diferent from self.",
        Effect.send "B" { forwardEnvelope with hops := ["O1", "A"] }]) := by
  have h := (forward_nonready fwdRouter forwardEnvelope "B" (by decide) rfl
    (by decide)).2 ("B", mkSession "B" (some "B")) rfl
  exact h.2

/-- C7: dispatching a CLOSED envelope whose `originUUID` keys no session
leaves the manager — in particular its session table — exactly unchanged
(only a console warning is emitted, and the handler, being a total function
here, raises nothing); when `originUUID` does key a session, that session is
removed from the table. -/
theorem closed_unknown_origin (r : Router) (m : Msg)
    (ha : m.action = WindowMessage.CLOSED) (hd : m.destinationUUID = none) :
    (getSession r.sessions m.originUUID = none →
      dispatch r m = (r, [Effect.warn "TabTalk: Unknown closed origin session."])) ∧
    (∀ p, getSession r.sessions m.originUUID = some p →
      dispatch r m =
        ({ r with sessions := deleteSession r.sessions m.originUUID },
         [Effect.setStatus p.2.uuid SessionStatus.closedStatus])) := by
  have hready : ¬ m.action = WindowMessage.READY := by
    rw [ha]; decide
  have hcond : ¬ (m.destinationUUID ≠ none ∧ m.destinationUUID ≠ some r.uuid) := by
    simp [hd]
  constructor
  · intro h
    simp only [dispatch, if_neg hready, if_neg hcond, processLocal, if_pos ha, h]
  · intro p h
    simp only [dispatch, if_neg hready, if_neg hcond, processLocal, if_pos ha, h]

/-- C7 (witness): at the concrete manager `A` with one session keyed `B`, a
CLOSED envelope from unknown origin `Z` leaves the state unchanged, and a
CLOSED envelope from `B` removes that session. -/
theorem closed_unknown_origin_witness :
    dispatch fwdRouter strayClosedEnvelope =
      (fwdRouter, [Effect.warn "TabTalk: Unknown closed origin session."]) ∧
    dispatch fwdRouter knownClosedEnvelope =
      ({ fwdRouter with sessions := [] },
       [Effect.setStatus "B" SessionStatus.closedStatus]) := by
  constructor
  · exact (closed_unknown_origin fwdRouter strayClosedEnvelope rfl rfl).1 rfl
  · have h := (closed_unknown_origin fwdRouter knownClosedEnvelope rfl rfl).2
      ("B", mkSession "B" (some "B")) rfl
    simpa [fwdRouter, deleteSession, mkSession] using h

/-- C4: `broadcast` builds its envelope from `this.manager.type` and
`this.manager.uuid` — fields of the `EventManager`, which has neither — so
the BROADCAST envelope handed to every session carries `undefined` (absent)
`originType` and `originUUID` instead of the calling manager's own type
(`"Main"`) and uuid (`"A"`); the `hops` seed, the action, and the payload are
as described.  This contradicts the envelope documentation of
`WindowMessage.js`, which declares both origin fields obligatory, and the
BROADCAST origin filter that compares session uuids against `originUUID`. -/
theorem broadcast_origin_undefined :
    broadcast fwdRouter (some (.str "d")) (some "auth") =
      [Effect.send "B"
        { number := 0, action := WindowMessage.BROADCAST,
          originType := none, originUUID := none,
          destinationType := none, destinationUUID := none,
          data := some (.str "d"), authentication := some "auth",
          hops := ["A"] }] ∧
    (none : Option String) ≠ some fwdRouter.uuid ∧
    (none : Option String) ≠ fwdRouter.type := by
  refine ⟨rfl, by simp, by simp [fwdRouter]⟩

/-- C5 (counterexample): a MESSAGE envelope whose `originUUID` keys no
session is *not* handled without callbacks — the manager's global `onMessage`
fires first, before the session lookup, so it fires here too.  (The same
trace shows the global callback is invoked before any session callback could
be, contradicting the claimed session-before-global order.) -/
theorem message_global_callback_counterexample :
    getSession globalRouter.sessions orphanEnvelope.originUUID = none ∧
    dispatch globalRouter orphanEnvelope =
      (globalRouter,
       [Effect.globalOnMessage (some "T") (some (.str "d")) (some "a"),
        Effect.warn "TabTalk: Unknown origin session."]) :=
  ⟨rfl, rfl⟩

/-- C5 (amended): dispatching an inbound MESSAGE envelope invokes the
manager's global `onMessage` first (when set), regardless of whether
`originUUID` keys a session; if it does, the envelope is then queued on that
session's `received` list and the session's own `onMessage` is invoked (after
the global one); if it does not, the envelope is logged and dropped with no
session callback and no state change. -/
theorem message_dispatch_order (r : Router) (m : Msg)
    (ha : m.action = WindowMessage.MESSAGE) (hd : m.destinationUUID = none) :
    (getSession r.sessions m.originUUID = none →
      dispatch r m =
        (r, (if r.onMessage then
              [Effect.globalOnMessage m.originType m.data m.authentication]
            else []) ++ [Effect.warn "TabTalk: Unknown origin session."])) ∧
    (∀ p, getSession r.sessions m.originUUID = some p →
      dispatch r m =
        ({ r with sessions := (updateSession r.sessions m.originUUID
              (fun s => { s with received := s.received ++ [m] })) },
         (if r.onMessage then
            [Effect.globalOnMessage m.originType m.data m.authentication]
          else []) ++
         (if p.2.onMessage then
            [Effect.sessionOnMessage p.2.uuid m.data m.authentication]
          else []))) := by
  constructor
  · intro h
    simp only [dispatch, processLocal, ha, hd, WindowMessage.READY,
      WindowMessage.CLOSED, WindowMessage.LOOKUP, WindowMessage.CONNECT,
      WindowMessage.BROADCAST, WindowMessage.MESSAGE, h]
    simp
  · intro p h
    simp only [dispatch, processLocal, ha, hd, WindowMessage.READY,
      WindowMessage.CLOSED, WindowMessage.LOOKUP, WindowMessage.CONNECT,
      WindowMessage.BROADCAST, WindowMessage.MESSAGE, h]
    simp

/-- C5 (witness for the amended theorem): at manager `A` (no global callback)
with a session keyed `B` (no session callback), a MESSAGE from `B` is queued
on that session's `received` list and nothing else happens. -/
theorem message_dispatch_order_witness :
    dispatch fwdRouter msgFromB =
      ({ fwdRouter with
          sessions := [("B", { mkSession "B" (some "B") with received := [msgFromB] })] },
       []) := by
  have h := (message_dispatch_order fwdRouter msgFromB rfl rfl).2
    ("B", mkSession "B" (some "B")) rfl
  simpa [fwdRouter, updateSession, mkSession] using h

/-- C8 (counterexample): in the star network, the hub relays leaf `L`'s
broadcast with hops `["L", "H"]` — the handler pushes the hub's own uuid
before forwarding, and `broadcast` itself seeded the originator's uuid — not
with the claimed one-element list `["L"]`. -/
theorem star_hub_hops_counterexample :
    relayHops (netRun 10 starNet) "H" = [["L", "H"], ["L", "H"]] ∧
    (["L", "H"] : List String) ≠ ["L"] :=
  ⟨rfl, by decide⟩

/-- C8 (amended): in the star topology (hub `H`, leaves `L`, `M`, `K`), a
broadcast originated by leaf `L` terminates, is delivered to each of the
other leaves exactly once and never back to `L`, and every envelope the hub
forwards onward carries hops `["L", "H"]` (the originator's uuid seeded by
`broadcast`, then the hub's own uuid appended on relay). -/
theorem star_broadcast_delivery :
    (netRun 3 starNet).queue = [] ∧
    (netRun 10 starNet).queue = [] ∧
    broadcastDeliveries (netRun 10 starNet) "M" = 1 ∧
    broadcastDeliveries (netRun 10 starNet) "K" = 1 ∧
    broadcastDeliveries (netRun 10 starNet) "L" = 0 ∧
    forwardCount (netRun 10 starNet) "H" = 2 ∧
    relayHops (netRun 10 starNet) "H" = [["L", "H"], ["L", "H"]] :=
  ⟨rfl, rfl, rfl, rfl, rfl, rfl, rfl⟩

/-- C9: in the object built by the `WindowMessage` constructor, each optional
field (`destinationType`, `destinationUUID`, `data`, `authentication`) is
present exactly when the corresponding argument was supplied (not
`undefined`) and then holds that argument — an unsupplied field is omitted
altogether, never materialized (in particular never as `null`) — and `hops`
is initialized to the empty array. -/
theorem windowMessage_optional_fields (number action originType originUUID
    destinationType destinationUUID data authentication : JSVal) :
    getField (WindowMessage.construct number action originType originUUID
        destinationType destinationUUID data authentication) "destinationType" =
      (if destinationType.isUndefined then none else some destinationType) ∧
    getField (WindowMessage.construct number action originType originUUID
        destinationType destinationUUID data authentication) "destinationUUID" =
      (if destinationUUID.isUndefined then none else some destinationUUID) ∧
    getField (WindowMessage.construct number action originType originUUID
        destinationType destinationUUID data authentication) "data" =
      (if data.isUndefined then none else some data) ∧
    getField (WindowMessage.construct number action originType originUUID
        destinationType destinationUUID data authentication) "authentication" =
      (if authentication.isUndefined then none else some authentication) ∧
    getField (WindowMessage.construct number action originType originUUID
        destinationType destinationUUID data authentication) "hops" =
      some (JSVal.arr []) := by
  cases h1 : destinationType.isUndefined <;> cases h2 : destinationUUID.isUndefined <;>
    cases h3 : data.isUndefined <;> cases h4 : authentication.isUndefined <;>
    simp [WindowMessage.construct, getField, h1, h2, h3, h4]

/-- C10: `sessionAvailable` returns `false` on an empty session table;
returns `true` when the first enumerated session's type equals the argument;
and otherwise — the `||` short-circuit having failed — evaluates the unbound
identifier `message` and throws a ReferenceError instead of returning a
boolean (so a matching session after the first entry is never reached). -/
theorem sessionAvailable_first_entry :
    (∀ r : Router, ∀ ty, r.sessions = [] →
      sessionAvailable r ty = Except.ok false) ∧
    (∀ r : Router, ∀ k s rest ty, r.sessions = (k, s) :: rest → s.type = ty →
      sessionAvailable r ty = Except.ok true) ∧
    (∀ r : Router, ∀ k s rest ty, r.sessions = (k, s) :: rest → s.type ≠ ty →
      sessionAvailable r ty = Except.error (JSError.referenceError "message")) := by
  refine ⟨?_, ?_, ?_⟩
  · intro r ty h
    simp [sessionAvailable, h, sessionAvailableLoop]
  · intro r k s rest ty h hty
    simp [sessionAvailable, h, sessionAvailableLoop, hty]
  · intro r k s rest ty h hty
    simp [sessionAvailable, h, sessionAvailableLoop, hty]

/-- C10 (witness): with no sessions the call returns `ok false`; with a first
session of the requested type it returns `ok true`; with a first session of a
different type it throws the ReferenceError on `message`. -/
theorem sessionAvailable_first_entry_witness :
    sessionAvailable globalRouter (some "T") = Except.ok false ∧
    sessionAvailable fwdRouter (some "B") = Except.ok true ∧
    sessionAvailable fwdRouter (some "Nope") =
      Except.error (JSError.referenceError "message") :=
  ⟨sessionAvailable_first_entry.1 globalRouter (some "T") rfl,
   sessionAvailable_first_entry.2.1 fwdRouter "B" (mkSession "B" (some "B")) []
     (some "B") rfl rfl,
   sessionAvailable_first_entry.2.2 fwdRouter "B" (mkSession "B" (some "B")) []
     (some "Nope") rfl (by decide)⟩

/-- C6: `openSession` is idempotent in the session type: when a session of
the requested type is already in the table it is returned as-is, with no new
session created and the state unchanged; and two consecutive calls with the
same type (no intervening close) return the identical session object. -/
theorem openSession_idempotent :
    (∀ st ty s, st.sessions.find? (fun x => x.type = ty) = some s →
      openSession st ty = (s, st)) ∧
    (∀ st ty, (openSession (openSession st ty).2 ty).1 = (openSession st ty).1) := by
  constructor
  · intro st ty s h
    simp [openSession, h]
  · intro st ty
    rcases h : st.sessions.find? (fun x => x.type = ty) with _ | s
    · simp [openSession, h, List.find?_append]
    · simp [openSession, h]

/-- The deliveries performed by the BROADCAST forwarding loop are exactly one
copy of the envelope to each session passing the origin/hops filter, in table
order. -/
theorem sendTargets_broadcastForward (sessions : List (String × Session)) (m : Msg) :
    sendTargets (broadcastForward sessions m) =
      sessions.filterMap (fun p =>
        if some p.2.uuid ≠ m.originUUID ∧ p.2.uuid ∉ m.hops then some (p.1, m)
        else none) := by
  induction sessions with
  | nil => rfl
  | cons head tl ih =>
    obtain ⟨k, s⟩ := head
    by_cases hc : some s.uuid ≠ m.originUUID ∧ s.uuid ∉ m.hops
    · by_cases hb : s.onBroadcastMessage <;>
        simpa [broadcastForward, sendTargets, List.filterMap_append, hc.1, hc.2,
          hb] using ih
    · simp only [not_and_or, not_not] at hc
      rcases hc with hc | hc
      · simpa [broadcastForward, sendTargets, List.filterMap_append, hc] using ih
      · simpa [broadcastForward, sendTargets, List.filterMap_append, hc] using ih

/-- `sendTargets` distributes over concatenated effect lists. -/
theorem sendTargets_append (l1 l2 : List Effect) :
    sendTargets (l1 ++ l2) = sendTargets l1 ++ sendTargets l2 :=
  List.filterMap_append l1 l2 _

/-- A global broadcast callback invocation delivers nothing. -/
theorem sendTargets_globalOnBroadcast (d : Option JSVal) (a : Option String)
    (l : List Effect) :
    sendTargets (Effect.globalOnBroadcast d a :: l) = sendTargets l :=
  rfl

/-- C2: dispatching an inbound BROADCAST envelope leaves the manager state
unchanged and forwards the envelope — with this manager's uuid appended to
`hops` — exactly to the sessions whose uuid is neither the envelope's
`originUUID` nor a member of the (extended) hop list; consequently, in the
concrete cycle A–B–C–A, a broadcast originated at `A` drains the network in
four deliveries, with `A` forwarding nothing and `B` and `C` each forwarding
exactly once. -/
theorem broadcast_filter_and_cycle (r : Router) (m : Msg)
    (ha : m.action = WindowMessage.BROADCAST) (hd : m.destinationUUID = none) :
    (dispatch r m).1 = r ∧
    sendTargets (dispatch r m).2 =
      r.sessions.filterMap (fun p =>
        if some p.2.uuid ≠ m.originUUID ∧ p.2.uuid ∉ m.hops ++ [r.uuid] then
          some (p.1, { m with hops := m.hops ++ [r.uuid] })
        else none) ∧
    (netRun 4 cycleNet).queue = [] ∧
    (netRun 10 cycleNet).queue = [] ∧
    forwardCount (netRun 10 cycleNet) "A" = 0 ∧
    forwardCount (netRun 10 cycleNet) "B" = 1 ∧
    forwardCount (netRun 10 cycleNet) "C" = 1 := by
  refine ⟨?_, ?_, rfl, rfl, rfl, rfl, rfl⟩
  · simp only [dispatch, processLocal, ha, hd, WindowMessage.READY,
      WindowMessage.CLOSED, WindowMessage.LOOKUP, WindowMessage.CONNECT,
      WindowMessage.BROADCAST]
    simp
  · by_cases hb : r.onBroadcastMessage <;>
      simp [dispatch, processLocal, ha, hd, WindowMessage.READY,
        WindowMessage.CLOSED, WindowMessage.LOOKUP, WindowMessage.CONNECT,
        WindowMessage.BROADCAST, hb, sendTargets_append,
        sendTargets_globalOnBroadcast, sendTargets_broadcastForward]

/-- C2 (witness): cycle node `B`, receiving `A`'s broadcast envelope, relays
one copy — hops extended to `["A", "B"]` — to `C` only (`A` is in the hop
list), and the concrete cycle run drains. -/
theorem broadcast_filter_and_cycle_witness :
    sendTargets (dispatch cycleB cycleEnvelopeAtB).2 =
      [("C", { cycleEnvelopeAtB with hops := ["A", "B"] })] ∧
    (netRun 4 cycleNet).queue = [] := by
  have h := broadcast_filter_and_cycle cycleB cycleEnvelopeAtB rfl rfl
  refine ⟨?_, h.2.2.1⟩
  rw [h.2.1]
  rfl

/-- Reading a property of a `data` payload that is an object succeeds and
yields the advertised field. -/
theorem jsGetProp_obj (m : Msg) (fields : List (String × JSVal))
    (h : m.data = some (JSVal.obj fields)) (k : String) :
    jsGetProp m.data k = Except.ok (advertisedField m k) := by
  rw [h]
  simp [jsGetProp, advertisedField, h]

/-- Once a match has been accepted, the collector performs no further
`onFinish` invocation and throws no error on any remaining responses (a
LOOKUP_FOUND arriving with `found` already set never reads its payload). -/
theorem collector_after_found (sessions : List (String × Session)) (sent : Nat) :
    ∀ (resps : List Msg) (received : Nat),
      collector sessions sent received true resps = ([], []) := by
  intro resps
  induction resps with
  | nil => intro received; rfl
  | cons m rest ih =>
    intro received
    by_cases h5 : m.action = WindowMessage.LOOKUP_FOUND
    · rcases hg : getSession sessions m.originUUID with _ | p
      · simp only [collector, collectorHandle, if_pos h5, hg]
        split <;> simp [ih]
      · simp only [collector, collectorHandle, if_pos h5, hg]
        split <;> simp [ih]
    · by_cases h6 : m.action = WindowMessage.LOOKUP_NOT_FOUND
      · simp only [collector, collectorHandle, if_neg h5, if_pos h6]
        split <;> simp [ih]
      · simp only [collector, collectorHandle, if_neg h5, if_neg h6]
        split <;> simp [ih]

/-- A LOOKUP_FOUND response the collector does not accept has an `originUUID`
keying no session. -/
theorem not_accepted_found_none (sessions : List (String × Session)) (x : Msg)
    (h5 : x.action = WindowMessage.LOOKUP_FOUND)
    (hx : ¬ accepted sessions x = true) :
    getSession sessions x.originUUID = none := by
  rcases he : getSession sessions x.originUUID with _ | q
  · rfl
  · exact absurd (by simp [accepted, h5, he]) hx

/-- Started unresolved, over responses whose LOOKUP_FOUND payloads are
objects, the collector accepts exactly the first response that is a
LOOKUP_FOUND from a known origin, invoking `onFinish` once with that origin's
session and the advertised identity, throwing nothing, and doing nothing
afterwards. -/
theorem collector_accepts_first (sessions : List (String × Session)) :
    ∀ (resps : List Msg) (received sent : Nat) (m : Msg) (p : String × Session),
      resps.find? (accepted sessions) = some m →
      getSession sessions m.originUUID = some p →
      sent = received + resps.length →
      (∀ x ∈ resps, x.action = WindowMessage.LOOKUP_FOUND ∨
        x.action = WindowMessage.LOOKUP_NOT_FOUND) →
      (∀ x ∈ resps, x.action = WindowMessage.LOOKUP_FOUND →
        ∃ fields, x.data = some (JSVal.obj fields)) →
      collector sessions sent received false resps =
        ([FinishCall.found p (advertisedField m "uuid")
            (advertisedField m "type")], []) := by
  intro resps
  induction resps with
  | nil =>
    intro received sent m p hf
    exact absurd hf (by simp)
  | cons x rest ih =>
    intro received sent m p hf hg hsent hact hdata
    by_cases hx : accepted sessions x = true
    · rw [List.find?_cons_of_pos _ hx] at hf
      have hm : x = m := Option.some.inj hf
      subst hm
      have h5 : x.action = WindowMessage.LOOKUP_FOUND := by
        simpa [accepted] using And.left (by simpa [accepted] using hx)
      obtain ⟨fields, hfield⟩ := hdata x (List.mem_cons_self x rest) h5
      have hu := jsGetProp_obj x fields hfield "uuid"
      have ht := jsGetProp_obj x fields hfield "type"
      simp only [collector, collectorHandle, if_pos h5, hg, hu, ht]
      split
      · simp
      · simp [collector_after_found]
    · rw [List.find?_cons_of_neg _ hx] at hf
      have hrest : rest ≠ [] := by
        rintro rfl
        simp at hf
      have hlen0 : rest.length ≠ 0 := fun h0 => hrest (List.length_eq_zero.mp h0)
      have hnotone : ¬ sent = received + 1 := by
        rw [hsent, List.length_cons]
        omega
      have hsent' : sent = (received + 1) + rest.length := by
        rw [hsent, List.length_cons]
        omega
      have hact' : ∀ y ∈ rest, y.action = WindowMessage.LOOKUP_FOUND ∨
          y.action = WindowMessage.LOOKUP_NOT_FOUND :=
        fun y hy => hact y (List.mem_cons_of_mem x hy)
      have hdata' : ∀ y ∈ rest, y.action = WindowMessage.LOOKUP_FOUND →
          ∃ fields, y.data = some (JSVal.obj fields) :=
        fun y hy => hdata y (List.mem_cons_of_mem x hy)
      rcases hact x (List.mem_cons_self x rest) with h5 | h6
      · have hgx := not_accepted_found_none sessions x h5 hx
        simp only [collector, collectorHandle, if_pos h5, hgx, if_neg hnotone]
        simp [ih (received + 1) sent m p hf hg hsent' hact' hdata']
      · have h5n : ¬ x.action = WindowMessage.LOOKUP_FOUND := by
          rw [h6]; decide
        simp only [collector, collectorHandle, if_neg h5n, if_pos h6,
          if_neg hnotone]
        simp [ih (received + 1) sent m p hf hg hsent' hact' hdata']

/-- Started unresolved over a response batch containing no acceptable
LOOKUP_FOUND, the collector counts every response (a LOOKUP_FOUND from an
unknown origin never reaches the payload read, so nothing throws) and fires
`onFinish(null)` exactly once, on the last one. -/
theorem collector_no_accept (sessions : List (String × Session)) :
    ∀ (resps : List Msg) (received sent : Nat),
      resps ≠ [] →
      resps.find? (accepted sessions) = none →
      sent = received + resps.length →
      (∀ x ∈ resps, x.action = WindowMessage.LOOKUP_FOUND ∨
        x.action = WindowMessage.LOOKUP_NOT_FOUND) →
      collector sessions sent received false resps =
        ([FinishCall.finishedNull], []) := by
  intro resps
  induction resps with
  | nil =>
    intro received sent h
    exact absurd rfl h
  | cons x rest ih =>
    intro received sent _ hf hsent hact
    have hx : ¬ accepted sessions x = true := by
      intro hxx
      rw [List.find?_cons_of_pos _ hxx] at hf
      cases hf
    rw [List.find?_cons_of_neg _ hx] at hf
    by_cases hrest : rest = []
    · subst hrest
      have hone : sent = received + 1 := by simpa using hsent
      rcases hact x (List.mem_cons_self x []) with h5 | h6
      · have hgx := not_accepted_found_none sessions x h5 hx
        simp only [collector, collectorHandle, if_pos h5, hgx, if_pos hone]
        simp
      · have h5n : ¬ x.action = WindowMessage.LOOKUP_FOUND := by
          rw [h6]; decide
        simp only [collector, collectorHandle, if_neg h5n, if_pos h6,
          if_pos hone]
        simp
    · have hlen0 : rest.length ≠ 0 := fun h0 => hrest (List.length_eq_zero.mp h0)
      have hnotone : ¬ sent = received + 1 := by
        rw [hsent, List.length_cons]
        omega
      have hsent' : sent = (received + 1) + rest.length := by
        rw [hsent, List.length_cons]
        omega
      have hact' : ∀ y ∈ rest, y.action = WindowMessage.LOOKUP_FOUND ∨
          y.action = WindowMessage.LOOKUP_NOT_FOUND :=
        fun y hy => hact y (List.mem_cons_of_mem x hy)
      rcases hact x (List.mem_cons_self x rest) with h5 | h6
      · have hgx := not_accepted_found_none sessions x h5 hx
        simp only [collector, collectorHandle, if_pos h5, hgx, if_neg hnotone]
        simp [ih (received + 1) sent hrest hf hsent' hact']
      · have h5n : ¬ x.action = WindowMessage.LOOKUP_FOUND := by
          rw [h6]; decide
        simp only [collector, collectorHandle, if_neg h5n, if_pos h6,
          if_neg hnotone]
        simp [ih (received + 1) sent hrest hf hsent' hact']

/-- C3: over any batch in which each session sent exactly one response, each
of kind LOOKUP_FOUND or LOOKUP_NOT_FOUND and each LOOKUP_FOUND carrying its
advertised `{uuid, type}` object payload (the only LOOKUP_FOUND shape a peer
ever emits, see `lookup_branch_wellformed`), `lookup` sends one LOOKUP
envelope per session, throws nothing, and invokes `onFinish` exactly once:
with an empty session table it is `onFinish(null)` with nothing sent; with
the first accepted LOOKUP_FOUND responder it is that responder's session and
its advertised `uuid` and `type`; with no accepted LOOKUP_FOUND it is
`onFinish(null)`. -/
theorem lookup_onFinish_exactly_once (r : Router) (ty : Option String)
    (resps : List Msg)
    (hlen : resps.length = r.sessions.length)
    (hact : ∀ x ∈ resps, x.action = WindowMessage.LOOKUP_FOUND ∨
      x.action = WindowMessage.LOOKUP_NOT_FOUND)
    (hdata : ∀ x ∈ resps, x.action = WindowMessage.LOOKUP_FOUND →
      ∃ fields, x.data = some (JSVal.obj fields)) :
    (lookup r ty resps).1 =
      r.sessions.map (fun p => Effect.send p.1 (lookupRequest r ty)) ∧
    (r.sessions = [] →
      (lookup r ty resps).1 = [] ∧
      (lookup r ty resps).2.1 = [FinishCall.finishedNull]) ∧
    (∀ m p, resps.find? (accepted r.sessions) = some m →
      getSession r.sessions m.originUUID = some p →
      (lookup r ty resps).2.1 =
        [FinishCall.found p (advertisedField m "uuid")
          (advertisedField m "type")]) ∧
    (resps.find? (accepted r.sessions) = none →
      (lookup r ty resps).2.1 = [FinishCall.finishedNull]) ∧
    (lookup r ty resps).2.1.length = 1 ∧
    (lookup r ty resps).2.2 = [] := by
  have h1 : (lookup r ty resps).1 =
      r.sessions.map (fun p => Effect.send p.1 (lookupRequest r ty)) := by
    simp only [lookup]
    split <;> rfl
  have h2 : r.sessions ≠ [] →
      (lookup r ty resps).2 =
        collector r.sessions r.sessions.length 0 false resps := by
    intro hne
    have hpos : 0 < r.sessions.length := List.length_pos.mpr hne
    simp [lookup, hpos]
  have hsent0 : r.sessions ≠ [] → r.sessions.length = 0 + resps.length := by
    intro _
    rw [Nat.zero_add]
    exact hlen.symm
  have hre : r.sessions ≠ [] → resps ≠ [] := by
    intro hne h0
    rw [h0] at hlen
    exact hne (List.length_eq_zero.mp hlen.symm)
  have hmain : r.sessions ≠ [] →
      (lookup r ty resps).2.1 = [FinishCall.finishedNull] ∨
      ∃ m p, resps.find? (accepted r.sessions) = some m ∧
        getSession r.sessions m.originUUID = some p ∧
        (lookup r ty resps).2.1 =
          [FinishCall.found p (advertisedField m "uuid")
            (advertisedField m "type")] := by
    intro hne
    rcases hf : resps.find? (accepted r.sessions) with _ | m
    · left
      rw [h2 hne, collector_no_accept r.sessions resps 0 r.sessions.length
        (hre hne) hf (hsent0 hne) hact]
    · right
      have hacc : accepted r.sessions m = true := List.find?_some hf
      have hs : (getSession r.sessions m.originUUID).isSome = true := by
        have := by simpa [accepted] using hacc
        exact this.2
      rcases hp : getSession r.sessions m.originUUID with _ | p
      · rw [hp] at hs
        cases hs
      · refine ⟨m, p, rfl, hp, ?_⟩
        rw [h2 hne, collector_accepts_first r.sessions resps 0
          r.sessions.length m p hf hp (hsent0 hne) hact hdata]
  refine ⟨h1, ?_, ?_, ?_, ?_, ?_⟩
  · intro hne
    refine ⟨?_, ?_⟩
    · rw [h1, hne]
      rfl
    · simp [lookup, hne]
  · intro m p hf hg
    have hne : r.sessions ≠ [] := by
      intro h0
      rw [h0] at hg
      rcases ho : m.originUUID with _ | u <;> simp [getSession, ho] at hg
    rw [h2 hne, collector_accepts_first r.sessions resps 0 r.sessions.length
      m p hf hg (hsent0 hne) hact hdata]
  · intro hf
    by_cases hne : r.sessions = []
    · simp [lookup, hne]
    · rw [h2 hne, collector_no_accept r.sessions resps 0 r.sessions.length
        (hre hne) hf (hsent0 hne) hact]
  · by_cases hne : r.sessions = []
    · simp [lookup, hne]
    · rcases hmain hne with h | ⟨m, p, _, _, h⟩ <;> rw [h] <;> rfl
  · by_cases hne : r.sessions = []
    · simp [lookup, hne]
    · rcases hf : resps.find? (accepted r.sessions) with _ | m
      · rw [h2 hne, collector_no_accept r.sessions resps 0 r.sessions.length
          (hre hne) hf (hsent0 hne) hact]
      · have hacc : accepted r.sessions m = true := List.find?_some hf
        have hs : (getSession r.sessions m.originUUID).isSome = true := by
          have := by simpa [accepted] using hacc
          exact this.2
        rcases hp : getSession r.sessions m.originUUID with _ | p
        · rw [hp] at hs
          cases hs
        · rw [h2 hne, collector_accepts_first r.sessions resps 0
            r.sessions.length m p hf hp (hsent0 hne) hact hdata]

/-- C3 (witness): at the manager with neighbors `B` (type `X`) and `C` (type
`T`), the response batch `[NOT_FOUND from B, FOUND from C advertising
{uuid: "Z", type: "T"}]` produces exactly one `onFinish` invocation, carrying
`C`'s session entry and the advertised identity, and no thrown error. -/
theorem lookup_onFinish_exactly_once_witness :
    (lookup lkRouter (some "T") [lkNB, lkFC]).2.1 =
      [FinishCall.found ("C", mkSession "C" (some "T"))
        (JSVal.str "Z") (JSVal.str "T")] ∧
    (lookup lkRouter (some "T") [lkNB, lkFC]).2.1.length = 1 ∧
    (lookup lkRouter (some "T") [lkNB, lkFC]).2.2 = [] := by
  have h := lookup_onFinish_exactly_once lkRouter (some "T") [lkNB, lkFC] rfl
    (by
      intro x hx
      rcases List.mem_cons.mp hx with h | h
      · subst h
        right
        rfl
      · rcases List.mem_cons.mp h with h | h
        · subst h
          left
          rfl
        · cases h)
    (by
      intro x hx h5x
      rcases List.mem_cons.mp hx with h | h
      · subst h
        exact absurd h5x (by decide)
      · rcases List.mem_cons.mp h with h | h
        · subst h
          exact ⟨[("uuid", .str "Z"), ("type", .str "T")], rfl⟩
        · cases h)
  refine ⟨?_, h.2.2.2.2.1, h.2.2.2.2.2⟩
  have := h.2.2.1 lkFC ("C", mkSession "C" (some "T")) rfl rfl
  simpa [lkFC, advertisedField] using this

/-- Peers only emit well-formed lookup responses: every envelope the LOOKUP
branch of the message handler sends whose action is LOOKUP_FOUND carries an
object `data` payload (the `{uuid, type}` of the match), so the payload
hypothesis of the exactly-once theorem describes the protocol's own response
mix. -/
theorem lookup_branch_wellformed (r : Router) (m : Msg)
    (ha : m.action = WindowMessage.LOOKUP) (hd : m.destinationUUID = none) :
    ∀ e ∈ (dispatch r m).2, ∀ k resp, e = Effect.send k resp →
      resp.action = WindowMessage.LOOKUP_FOUND →
      ∃ fields, resp.data = some (JSVal.obj fields) := by
  intro e he k resp hsend hfound
  rw [hsend] at he
  revert he
  rcases hfind : r.sessions.find? (fun p => p.2.type = m.destinationType)
      with _ | q <;>
    rcases ho : getSession r.sessions m.originUUID with _ | pp <;>
      simp [dispatch, processLocal, ha, hd, WindowMessage.READY,
        WindowMessage.CLOSED, WindowMessage.LOOKUP, WindowMessage.CONNECT,
        WindowMessage.BROADCAST, WindowMessage.MESSAGE, hfind, ho] <;>
    intro hk hresp
  · rw [hresp] at hfound
    simp [WindowMessage.LOOKUP_NOT_FOUND, WindowMessage.LOOKUP_FOUND] at hfound
  · rw [hresp]
    exact ⟨[("uuid", .str q.2.uuid), ("type", optJS q.2.type)], rfl⟩

/-- On a malformed batch, the guarantee genuinely breaks the way the source
does: `badFound` is an accepted LOOKUP_FOUND carrying no `data`, so the
collector throws the TypeError of `data.data.uuid` after setting `found` but
before reaching `onFinish` or `received++`, and `onFinish` is never invoked
at all. -/
theorem lookup_malformed_found_throws :
    (lookup lkRouter (some "T") [lkNB, badFound]).2.1 = [] ∧
    (lookup lkRouter (some "T") [lkNB, badFound]).2.2 =
      [JSError.typeError "uuid"] :=
  ⟨rfl, rfl⟩

/-- C6 (witness): a state already holding a type-`T` session returns it
unchanged, and from the empty state two consecutive `openSession` calls for
type `T` return the identical session. -/
theorem openSession_idempotent_witness :
    openSession osWithT (some "T") = ({ id := 7, type := some "T" }, osWithT) ∧
    (openSession (openSession osEmpty (some "T")).2 (some "T")).1 =
      (openSession osEmpty (some "T")).1 :=
  ⟨openSession_idempotent.1 osWithT (some "T") { id := 7, type := some "T" } rfl,
   openSession_idempotent.2 osEmpty (some "T")⟩

end TabTalk
